import Mathlib

/-!
Verification development for the TV-display dashboard page
(src/pages/tv_display.py of the dashapp repository).

The Python module is embedded shallowly:

* Numbers coming out of the warehouse are modelled as rationals; a value
  that may be NULL/None is an Option.
* Python strings that undergo character-level processing (strip, upper,
  hex validation) are processed on their character lists, so that every
  definition evaluates inside the kernel.
* A Python value reaching the pastel color helper may be None, a number,
  or a string; the inductive PyVal captures this.  A string constructor
  carries the result of Python float conversion on it (some q when
  float(s) parses, none when float(s) raises ValueError), since the parse
  grammar of the float builtin is external to the repository.
* Exceptions are modelled with Except; a caught exception becomes the
  value of the handler branch.
* The warehouse itself is external: a FetchEnv record holds, for one
  selector, the rows each of the three views would return, and a
  QueryEnv holds the outcome of connection acquisition and statement
  execution for the generic query helper.
* The HTML layer (dash components) is presentation and is out of the
  specified core; a card, a chart and a table row are modelled by the
  data the source passes into the corresponding component constructors.
-/

namespace TvDisplay

/-- Python value as it reaches the color helpers: None, a number, or a
string.  A string carries the result of float conversion on it: some q
when float(s) parses, none when float(s) raises ValueError. -/
inductive PyVal where
  | pnone
  | num (q : ℚ)
  | str (s : String) (conv : Option ℚ)
  deriving DecidableEq

/-- Exception kinds that the color helpers of tv_display.py can raise:
exactly the three types named in the except clause of color_bar_powerbi. -/
inductive PyExc where
  | typeError
  | valueError
  | zeroDivisionError
  deriving DecidableEq

/-- Python float(x): None raises TypeError, a number converts, a string
converts or raises ValueError according to its carried parse result. -/
def pyFloatE : PyVal → Except PyExc ℚ
  | .pnone => .error .typeError
  | .num q => .ok q
  | .str _ conv =>
    match conv with
    | some q => .ok q
    | none => .error .valueError

/-- Python target == 0 on a PyVal: true only for the number zero (None
and strings never equal the integer 0 in Python). -/
def pyEqZero : PyVal → Bool
  | .num q => decide (q = 0)
  | _ => false

/-- Python (val - target) / target on raw values: defined only when both
operands are numbers (otherwise TypeError), and raising
ZeroDivisionError on a zero divisor. -/
def pySubDiv (val target : PyVal) : Except PyExc ℚ :=
  match val, target with
  | .num v, .num t =>
    if t = 0 then .error .zeroDivisionError else .ok ((v - t) / t)
  | _, _ => .error .typeError

/-- color_bar (src/pages/tv_display.py lines 120-129) on the numeric/None
inputs the payload builder feeds it: neutral gray when value or target is
absent or target is zero, else saturated green / amber / red by the sign
band of (val - target) / target. -/
def color_bar (val target : Option ℚ) : String :=
  match val, target with
  | none, _ => "#555555"
  | _, none => "#555555"
  | some v, some t =>
    if t = 0 then "#555555"
    else
      let pct := (v - t) / t
      if 0 ≤ pct then "#4CAF50"
      else if -(1/10 : ℚ) ≤ pct then "#FFC107"
      else "#F44336"

/-- color_bar evaluated with full Python runtime semantics over arbitrary
values: it has no try/except, so the arithmetic on line 123 raises
TypeError when a non-None, non-numeric value survives the guards. -/
def color_bar_py (val target : PyVal) : Except PyExc String :=
  if val = .pnone ∨ target = .pnone ∨ pyEqZero target then .ok "#555555"
  else
    match pySubDiv val target with
    | .error e => .error e
    | .ok pct =>
      .ok (if 0 ≤ pct then "#4CAF50"
           else if -(1/10 : ℚ) ≤ pct then "#FFC107"
           else "#F44336")

/-- The try block of color_bar_powerbi (line 137):
(float(val) - float(target)) / float(target), whose evaluation can raise
TypeError, ValueError or ZeroDivisionError. -/
def powerbiTryPct (val target : PyVal) : Except PyExc ℚ :=
  match pyFloatE val with
  | .error e => .error e
  | .ok v =>
    match pyFloatE target with
    | .error e => .error e
    | .ok t => if t = 0 then .error .zeroDivisionError else .ok ((v - t) / t)

/-- color_bar_powerbi (lines 132-145): pastel palette.  The guard returns
the light-green fallback; the pct computation is wrapped in a try whose
except clause names exactly the three exception kinds of PyExc, so every
failure of the conversion or the division lands in the fallback branch
and the function always returns a string. -/
def color_bar_powerbi (val target : PyVal) : String :=
  if val = .pnone ∨ target = .pnone ∨ pyEqZero target then "#C8E6C9"
  else
    match powerbiTryPct val target with
    | .error _ => "#C8E6C9"
    | .ok pct =>
      if 0 ≤ pct then "#C8E6C9"
      else if -(1/10 : ℚ) ≤ pct then "#FFF9C4"
      else "#FFCDD2"

/-- View of an optional warehouse number as the Python value handed to
color_bar_powerbi by the run-table rows. -/
def optToPy : Option ℚ → PyVal
  | none => .pnone
  | some q => .num q

/-- Python str.strip on a character list: whitespace removed from both
ends. -/
def pyStrip (l : List Char) : List Char :=
  ((l.dropWhile Char.isWhitespace).reverse.dropWhile Char.isWhitespace).reverse

/-- Python str.upper on a character list. -/
def pyUpper (l : List Char) : List Char := l.map Char.toUpper

/-- Character set of the validity check on line 157. -/
def hexColorChar (c : Char) : Bool := "0123456789ABCDEF#".data.contains c

/-- _normalize_cell_color (lines 148-159).  The column value is an
optional string (an absent/NaN cell is none).  Strip and uppercase it,
reject empty and the NAN/NONE spellings, prefix a hash when missing, and
accept exactly the strings of length at least 7 whose characters are all
hex digits or the hash. -/
def normalize_cell_color (val : Option String) : Option String :=
  match val with
  | none => none
  | some v =>
    let s := pyUpper (pyStrip v.data)
    if s = [] ∨ s = "NAN".data ∨ s = "NONE".data then none
    else
      let s2 := if s.head? = some '#' then s else '#' :: s
      if 7 ≤ s2.length ∧ s2.all hexColorChar then some (String.mk s2) else none

/-- Python x or y for an optional string x: y when x is None or the
empty string. -/
def pyOrStr (a : Option String) (b : String) : String :=
  match a with
  | none => b
  | some s => if s = "" then b else s

/-- Hex digit (no hash), for the spec-side well-formedness predicate. -/
def hexDigit (c : Char) : Bool := "0123456789ABCDEF".data.contains c

/-- Spec-side reading of a well-formed hex color string, for comparison
with the validation the source performs: after the same trimming,
uppercasing and hash-prefixing, the string is one hash followed by
exactly six hexadecimal digits. -/
def wellFormedHexColor (raw : String) : Bool :=
  let s := pyUpper (pyStrip raw.data)
  let s2 := if s.head? = some '#' then s else '#' :: s
  match s2 with
  | '#' :: digits => digits.length = 6 && digits.all hexDigit
  | _ => false

/-- Resolution of a colored run-table cell (lines 330-331): the
normalized upstream color code when the validation accepts it, else the
pastel three-tier color of the value/target pair, combined with the
Python or operator. -/
def resolveRunColor (code : Option String) (val target : Option ℚ) : String :=
  pyOrStr (normalize_cell_color code) (color_bar_powerbi (optToPy val) (optToPy target))

/-- Python truthiness of an optional number: None and 0 are falsy. -/
def pyTruthyNum : Option ℚ → Bool
  | none => false
  | some q => decide (q ≠ 0)

/-- Delta computation of _build_tv_payload (lines 265, 270 and 275):
((x - t) / t * 100) if x and t else 0.  The conditional uses Python
truthiness, so an absent operand and a zero operand both select the 0
branch. -/
def deltaPct (value target : Option ℚ) : ℚ :=
  match value, target with
  | some v, some t => if v = 0 ∨ t = 0 then 0 else (v - t) / t * 100
  | _, _ => 0

/-- One row of VW_SHIFT_TOTALS_FAST_03 as read by _build_tv_payload;
every field reached through row.get may be absent. -/
structure SummaryRow where
  dateShiftKey : Option String
  shift : Option String
  binsPerHour : Option ℚ
  binHourTargetWeighted : Option ℚ
  stamperPpmh : Option ℚ
  packsManhourTargetWeighted : Option ℚ
  totalBins : Option ℚ
  binsTargetFullShift : Option ℚ
  packsPerBin : Option ℚ
  deriving DecidableEq

/-- One aggregated bucket of the chart query (lines 84-97). -/
structure SeriesRow where
  bucketStart : String
  binsPerHour : Option ℚ
  binHourTarget : Option ℚ
  estPacksPerManHour : Option ℚ
  packsManhourTarget : Option ℚ
  minutesElapsed : Option ℚ
  deriving DecidableEq

/-- One row of VW_RUN_TOTALS_FAST_03 as read by the run table
(lines 103-117 and 329-341). -/
structure RunRecord where
  growerNumber : Option String
  varietyAbbr : Option String
  shift : Option String
  bins : Option ℚ
  binsPerHour : Option ℚ
  stamperPpmh : Option ℚ
  binHourTarget : Option ℚ
  packsManhourTarget : Option ℚ
  binsTargetColor : Option String
  packsTargetColor : Option String
  deriving DecidableEq

/-- Data passed by the builder into one kpi_card call (lines 161-200).
The HTML produced from it is presentation; showsGoal records the
condition of line 166 (goal truthy, positive, and value present) that
decides whether the goal/delta line is rendered. -/
structure KpiCard where
  title : String
  value : Option ℚ
  goal : Option ℚ
  deltaPct : ℚ
  color : String
  valueColor : String
  dec : ℕ
  showsGoal : Bool
  deriving DecidableEq

/-- kpi_card: records its inputs; the background falls back to the dark
default when the color argument is falsy (line 189), and the goal line
shows only under the condition of line 166. -/
def kpi_card (title : String) (value goal : Option ℚ) (delta : ℚ)
    (color : String) (valueColor : String) (dec : ℕ) : KpiCard :=
  ⟨title, value, goal, delta, pyOrStr (some color) "#2d2d2d", valueColor, dec,
   pyTruthyNum goal && decide (0 < goal.getD 0) && value.isSome⟩

/-- Card area of the payload: either the single no-data placeholder
column (lines 252-254) or the list of four kpi cards (lines 280-285). -/
inductive Cards where
  | placeholder (text : String)
  | list (cards : List KpiCard)
  deriving DecidableEq

/-- One plotted bucket of a chart: the stacked segments of lines
224-225 (met, up to target; over, beyond target), the target line value
and the per-bucket performance color. -/
structure ChartBar where
  bucketStart : String
  met : ℚ
  over : ℚ
  target : Option ℚ
  color : String
  deriving DecidableEq

/-- A chart figure: the no-data annotation figure (lines 216-222) or the
stacked-bar figure. -/
inductive Fig where
  | noData (title : String)
  | chart (title : String) (bars : List ChartBar)
  deriving DecidableEq

/-- Input taken by build_chart from one dataframe row: the selected
value column, target column and color column. -/
structure ChartInput where
  bucketStart : String
  value : Option ℚ
  target : Option ℚ
  color : String
  deriving DecidableEq

/-- Python x or 0 for an optional number. -/
def pyOrZero : Option ℚ → ℚ
  | none => 0
  | some q => q

/-- build_chart (lines 202-239): an empty frame yields the no-data
figure; otherwise each row yields a bar with
met = min(value or 0, target or 0) and
over = max(0, (value or 0) - (target or 0)).  In the typed embedding the
named columns always exist, so the missing-column guard of line 216
coincides with the emptiness test. -/
def build_chart (rows : List ChartInput) (title : String) : Fig :=
  match rows with
  | [] => .noData title
  | _ =>
    .chart title (rows.map fun r =>
      ⟨r.bucketStart, min (pyOrZero r.value) (pyOrZero r.target),
       max 0 (pyOrZero r.value - pyOrZero r.target), r.target, r.color⟩)

/-- One rendered run-table row (lines 332-341): the three identifying
cells (with the em-dash default of row.get), the numeric cells, and the
two resolved cell colors. -/
structure RunRowOut where
  grower : String
  variety : String
  shift : String
  bins : Option ℚ
  binsPerHour : Option ℚ
  bphColor : String
  binHourTarget : Option ℚ
  stamperPpmh : Option ℚ
  ppmhColor : String
  packsManhourTarget : Option ℚ
  deriving DecidableEq

/-- The run-table area: the no-active-runs paragraph (lines 302-303) or
the populated table. -/
inductive RunTable where
  | noRuns
  | table (rows : List RunRowOut)
  deriving DecidableEq

/-- The six-component payload returned by _build_tv_payload (line 356):
cards, two figures, run table, header text, freshness line. -/
structure Payload where
  cards : Cards
  ppmhFig : Fig
  bphFig : Fig
  runTable : RunTable
  header : String
  lastUpdated : String
  deriving DecidableEq

/-- Rows the warehouse would return for one selector: the at-most-one
summary row (the queries end in LIMIT 1), and the series and run rows
keyed by DATE_SHIFT_KEY. -/
structure FetchEnv where
  kpiRow : Option SummaryRow
  series : String → List SeriesRow
  runs : String → List RunRecord

/-- get_kpi_totals (lines 61-78): the summary fetch for the selector the
environment describes. -/
def get_kpi_totals (env : FetchEnv) : Option SummaryRow := env.kpiRow

/-- get_chart_data (lines 80-97): a falsy key (None or empty) short
circuits to an empty frame before any query; the boolean reports whether
a warehouse query was issued. -/
def get_chart_data (env : FetchEnv) (dateShiftKey : Option String) :
    Bool × List SeriesRow :=
  match dateShiftKey with
  | none => (false, [])
  | some k => if k = "" then (false, []) else (true, env.series k)

/-- get_current_runs (lines 99-117): same falsy-key short circuit as
get_chart_data. -/
def get_current_runs (env : FetchEnv) (dateShiftKey : Option String) :
    Bool × List RunRecord :=
  match dateShiftKey with
  | none => (false, [])
  | some k => if k = "" then (false, []) else (true, env.runs k)

/-- _build_tv_payload plus ghost instrumentation: the payload, the
resolved DATE_SHIFT_KEY handed to the two downstream fetches, and
whether each of those fetches issued a warehouse query. -/
structure BuildOut where
  payload : Payload
  dateShiftKey : Option String
  seriesQueried : Bool
  runsQueried : Bool
  deriving DecidableEq

/-- _build_tv_payload (lines 246-356).  today is the wall-clock date
string used when the selector is falsy, nowStr the wall-clock time
string of the freshness line; both are parameters because the source
reads them from datetime.now(). -/
def buildTvPayload (env : FetchEnv) (selectedDate : Option String)
    (today nowStr : String) : BuildOut :=
  let displayDate := pyOrStr selectedDate today
  let headerCards : String × Cards × Option String :=
    match get_kpi_totals env with
    | none =>
      (displayDate ++ " - — - Airport Apple Packing",
       Cards.placeholder ("No shift data for " ++ pyOrStr selectedDate "today"),
       none)
    | some row =>
      (displayDate ++ " - Shift " ++ row.shift.getD "—" ++ " - Airport Apple Packing",
       Cards.list
         [kpi_card "Bins Per Hour" row.binsPerHour row.binHourTargetWeighted
            (deltaPct row.binsPerHour row.binHourTargetWeighted)
            (color_bar row.binsPerHour row.binHourTargetWeighted) "#fff" 1,
          kpi_card "Packs Per Man Hour" row.stamperPpmh row.packsManhourTargetWeighted
            (deltaPct row.stamperPpmh row.packsManhourTargetWeighted)
            (color_bar row.stamperPpmh row.packsManhourTargetWeighted) "#fff" 1,
          kpi_card "Total Bins" row.totalBins row.binsTargetFullShift
            (deltaPct row.totalBins row.binsTargetFullShift)
            (color_bar row.totalBins row.binsTargetFullShift) "#fff" 0,
          kpi_card "Packs Per Bin" row.packsPerBin none 0 "#2d2d2d" "#fff" 1],
       row.dateShiftKey)
  let header := headerCards.1
  let cards := headerCards.2.1
  let dateShiftKey := headerCards.2.2
  let chartFetch := get_chart_data env dateShiftKey
  let chartRows := chartFetch.2
  let ppmhFig := build_chart
    (chartRows.map fun r =>
      ⟨r.bucketStart, r.estPacksPerManHour, r.packsManhourTarget,
       color_bar r.estPacksPerManHour r.packsManhourTarget⟩)
    "Packs Per Man Hour"
  let bphFig := build_chart
    (chartRows.map fun r =>
      ⟨r.bucketStart, r.binsPerHour, r.binHourTarget,
       color_bar r.binsPerHour r.binHourTarget⟩)
    "Bins Per Hour"
  let runsFetch := get_current_runs env dateShiftKey
  let runTable :=
    match runsFetch.2 with
    | [] => RunTable.noRuns
    | rows =>
      RunTable.table (rows.map fun r =>
        ⟨r.growerNumber.getD "—", r.varietyAbbr.getD "—", r.shift.getD "—",
         r.bins, r.binsPerHour,
         resolveRunColor r.binsTargetColor r.binsPerHour r.binHourTarget,
         r.binHourTarget, r.stamperPpmh,
         resolveRunColor r.packsTargetColor r.stamperPpmh r.packsManhourTarget,
         r.packsManhourTarget⟩)
  let lastUpdated := "Last updated: " ++ nowStr ++ " · Refreshes every 5 min"
  ⟨⟨cards, ppmhFig, bphFig, runTable, header, lastUpdated⟩,
   dateShiftKey, chartFetch.1, runsFetch.1⟩

/-- Cache key: the selected date, None being the sentinel for the
current shift. -/
abbrev Selector := Option String

/-- The _tv_cache mapping (line 242). -/
abbrev Cache := Selector → Option Payload

/-- The cache at process start: no entry for any selector. -/
def emptyCache : Cache := fun _ => none

/-- Cache write under the lock: the entry for the key is replaced
wholesale by the new payload; every other entry is untouched. -/
def cachePut (c : Cache) (k : Selector) (p : Payload) : Cache :=
  fun k2 => if k2 = k then some p else c k2

/-- Cache read under the lock. -/
def cacheGet (c : Cache) (k : Selector) : Option Payload := c k

/-- A sequence of cache writes applied in order. -/
def applyPuts (c : Cache) (ops : List (Selector × Payload)) : Cache :=
  ops.foldl (fun acc op => cachePut acc op.1 op.2) c

/-- update_tv (lines 497-507): serve the cached payload on a hit; on a
miss build synchronously, publish, and serve.  The build inputs are
parameters as in buildTvPayload. -/
def update_tv (env : FetchEnv) (c : Cache) (selectedDate : Option String)
    (today nowStr : String) : Payload × Cache :=
  match cacheGet c selectedDate with
  | some p => (p, c)
  | none =>
    let b := buildTvPayload env selectedDate today nowStr
    (b.payload, cachePut c selectedDate b.payload)

/-- Outcome test for one background build attempt. -/
def buildOk : Except String Payload → Bool
  | .ok _ => true
  | .error _ => false

/-- _refresh_cache_today (lines 359-366): the build outcome is the
argument; a successful build is published wholesale under the sentinel
key, an exception is caught (logged) and leaves the cache unchanged. -/
def refresh_cache_today (c : Cache) : Except String Payload → Cache
  | .ok p => cachePut c none p
  | .error _ => c

/-- The fixed sleep of the background worker loop (line 373). -/
def refreshIntervalSeconds : ℕ := 300

/-- Worker bookkeeping: number of completed refresh attempts, seconds
slept so far, current cache, number of successful publications of the
sentinel entry. -/
structure WorkerState where
  cycle : ℕ
  elapsedSeconds : ℕ
  cache : Cache
  writes : ℕ

/-- State after the immediate first refresh of _tv_background_worker
(line 371): one attempt done, no sleep yet. -/
def workerInit (builds : ℕ → Except String Payload) : WorkerState :=
  ⟨1, 0, refresh_cache_today emptyCache (builds 0),
   if buildOk (builds 0) then 1 else 0⟩

/-- One iteration of the while-True loop (lines 372-374): sleep the
fixed interval, then refresh with the next build outcome. -/
def workerNext (builds : ℕ → Except String Payload) (s : WorkerState) : WorkerState :=
  ⟨s.cycle + 1, s.elapsedSeconds + refreshIntervalSeconds,
   refresh_cache_today s.cache (builds s.cycle),
   if buildOk (builds s.cycle) then s.writes + 1 else s.writes⟩

/-- Step relation of the worker loop: the loop body is unconditional, so
the unique successor of a state is workerNext of it. -/
def WorkerStep (builds : ℕ → Except String Payload) (s s2 : WorkerState) : Prop :=
  s2 = workerNext builds s

/-- Worker state after the immediate refresh and n sleep intervals. -/
def workerAfter (builds : ℕ → Except String Payload) : ℕ → WorkerState
  | 0 => workerInit builds
  | n + 1 => workerNext builds (workerAfter builds n)

/-- Connection acquisition and statement execution outcomes seen by one
query call (lines 48-58): get_conn may raise (its fallback connect
propagates a failure), and execute/fetch either raises or returns the
materialized rows. -/
structure QueryEnv (α : Type) where
  acquire : Except String Unit
  exec : Except String (List α)

/-- Body of the try block of query (lines 50-55): acquire, then
execute and fetch. -/
def queryTryBody {α : Type} (env : QueryEnv α) : Except String (List α) :=
  match env.acquire with
  | .error e => .error e
  | .ok _ => env.exec

/-- query (lines 48-58): the whole body is wrapped in try/except
Exception, so a raised fault is logged and becomes the empty table.  The
result is kept in Except form to state that the error constructor is
never produced. -/
def query {α : Type} (env : QueryEnv α) : Except String (List α) :=
  match queryTryBody env with
  | .ok rows => .ok rows
  | .error _ => .ok []

/-- Delta percentages of a card area, in card order (empty for the
placeholder area). -/
def cardDeltas : Cards → List ℚ
  | .placeholder _ => []
  | .list cs => cs.map (fun c => c.deltaPct)

/-- A concrete payload used to instantiate witnesses. -/
def samplePayload : Payload :=
  ⟨Cards.placeholder "No shift data for today", Fig.noData "Packs Per Man Hour",
   Fig.noData "Bins Per Hour", RunTable.noRuns,
   "2026-10-12 - — - Airport Apple Packing", "Last updated: 12:00:00 PM · Refreshes every 5 min"⟩

/-! Shared helper lemmas. -/

/-- Characterization of the saturated three-tier rule on numeric inputs
with a positive target. -/
theorem color_bar_classification (v t : ℚ) (ht : 0 < t) :
    (color_bar (some v) (some t) = "#4CAF50" ↔ t ≤ v)
    ∧ (color_bar (some v) (some t) = "#FFC107" ↔ 9/10 * t ≤ v ∧ v < t)
    ∧ (color_bar (some v) (some t) = "#F44336" ↔ v < 9/10 * t) := by
  have ht0 : t ≠ 0 := ne_of_gt ht
  have k1 : (0 ≤ (v - t) / t) ↔ t ≤ v := by
    rw [le_div_iff₀ ht]
    constructor <;> intro h <;> linarith
  have k2 : (-(1/10 : ℚ) ≤ (v - t) / t) ↔ 9/10 * t ≤ v := by
    rw [le_div_iff₀ ht]
    constructor <;> intro h <;> linarith
  have hcb : color_bar (some v) (some t) =
      if 0 ≤ (v - t) / t then "#4CAF50"
      else if -(1/10 : ℚ) ≤ (v - t) / t then "#FFC107"
      else "#F44336" := by
    simp [color_bar, ht0]
  refine ⟨?_, ?_, ?_⟩
  · rw [hcb]
    split_ifs with h1 h2
    · exact iff_of_true rfl (k1.mp h1)
    · exact iff_of_false (by decide) fun hle => h1 (k1.mpr hle)
    · exact iff_of_false (by decide) fun hle => h1 (k1.mpr hle)
  · rw [hcb]
    split_ifs with h1 h2
    · exact iff_of_false (by decide) fun hw => absurd (k1.mp h1) (not_le.mpr hw.2)
    · exact iff_of_true rfl ⟨k2.mp h2, not_le.mp fun hle => h1 (k1.mpr hle)⟩
    · exact iff_of_false (by decide) fun hw => h2 (k2.mpr hw.1)
  · rw [hcb]
    split_ifs with h1 h2
    · refine iff_of_false (by decide) ?_
      intro hb
      have := k1.mp h1
      linarith
    · refine iff_of_false (by decide) ?_
      intro hb
      have := k2.mp h2
      linarith
    · refine iff_of_true rfl ?_
      have := not_le.mp fun hle => h2 (k2.mpr hle)
      linarith

/-- Characterization of the pastel three-tier rule on numeric inputs
with a positive target. -/
theorem color_bar_powerbi_classification (v t : ℚ) (ht : 0 < t) :
    (color_bar_powerbi (PyVal.num v) (PyVal.num t) = "#C8E6C9" ↔ t ≤ v)
    ∧ (color_bar_powerbi (PyVal.num v) (PyVal.num t) = "#FFF9C4" ↔ 9/10 * t ≤ v ∧ v < t)
    ∧ (color_bar_powerbi (PyVal.num v) (PyVal.num t) = "#FFCDD2" ↔ v < 9/10 * t) := by
  have ht0 : t ≠ 0 := ne_of_gt ht
  have k1 : (0 ≤ (v - t) / t) ↔ t ≤ v := by
    rw [le_div_iff₀ ht]
    constructor <;> intro h <;> linarith
  have k2 : (-(1/10 : ℚ) ≤ (v - t) / t) ↔ 9/10 * t ≤ v := by
    rw [le_div_iff₀ ht]
    constructor <;> intro h <;> linarith
  have hcb : color_bar_powerbi (PyVal.num v) (PyVal.num t) =
      if 0 ≤ (v - t) / t then "#C8E6C9"
      else if -(1/10 : ℚ) ≤ (v - t) / t then "#FFF9C4"
      else "#FFCDD2" := by
    simp [color_bar_powerbi, powerbiTryPct, pyFloatE, pyEqZero, ht0]
  refine ⟨?_, ?_, ?_⟩
  · rw [hcb]
    split_ifs with h1 h2
    · exact iff_of_true rfl (k1.mp h1)
    · exact iff_of_false (by decide) fun hle => h1 (k1.mpr hle)
    · exact iff_of_false (by decide) fun hle => h1 (k1.mpr hle)
  · rw [hcb]
    split_ifs with h1 h2
    · exact iff_of_false (by decide) fun hw => absurd (k1.mp h1) (not_le.mpr hw.2)
    · exact iff_of_true rfl ⟨k2.mp h2, not_le.mp fun hle => h1 (k1.mpr hle)⟩
    · exact iff_of_false (by decide) fun hw => h2 (k2.mpr hw.1)
  · rw [hcb]
    split_ifs with h1 h2
    · refine iff_of_false (by decide) ?_
      intro hb
      have := k1.mp h1
      linarith
    · refine iff_of_false (by decide) ?_
      intro hb
      have := k2.mp h2
      linarith
    · refine iff_of_true rfl ?_
      have := not_le.mp fun hle => h2 (k2.mpr hle)
      linarith

/-! Claim theorems. -/

/-- C1: for numeric value and target with target positive, color_bar
returns the good color exactly when value is at least target, the warn
color exactly when value is between nine tenths of target (inclusive)
and target (exclusive), and the bad color exactly when value is below
nine tenths of target; it returns the neutral gray whenever the value is
absent, the target is absent, or the target equals zero. -/
theorem C1_color_bar_three_tier (v t : ℚ) (ht : 0 < t) :
    (color_bar (some v) (some t) = "#4CAF50" ↔ t ≤ v)
    ∧ (color_bar (some v) (some t) = "#FFC107" ↔ 9/10 * t ≤ v ∧ v < t)
    ∧ (color_bar (some v) (some t) = "#F44336" ↔ v < 9/10 * t)
    ∧ (∀ x, color_bar none x = "#555555")
    ∧ (∀ x, color_bar x none = "#555555")
    ∧ (∀ x, color_bar (some x) (some 0) = "#555555") := by
  obtain ⟨h1, h2, h3⟩ := color_bar_classification v t ht
  exact ⟨h1, h2, h3, fun x => by cases x <;> rfl, fun x => by cases x <;> rfl,
    fun x => by simp [color_bar]⟩

/-- Witness for C1 at value 95 and target 100: the warn tier. -/
theorem C1_color_bar_three_tier_witness :
    (0 : ℚ) < 100
    ∧ (color_bar (some 95) (some 100) = "#FFC107" ↔ 9/10 * 100 ≤ (95 : ℚ) ∧ (95 : ℚ) < 100) :=
  ⟨by norm_num, (C1_color_bar_three_tier 95 100 (by norm_num)).2.1⟩

/-- C2 counterexample: at value 0 (present) and target 100 (present and
nonzero) the claimed formula gives -100, but the builder computes 0,
because the source conditional tests Python truthiness of the value and
0 is falsy. -/
theorem C2_counterexample_zero_value :
    deltaPct (some 0) (some 100) = 0
    ∧ (some (0 : ℚ)).isSome = true
    ∧ (some (100 : ℚ)).isSome = true
    ∧ (100 : ℚ) ≠ 0
    ∧ ((0 : ℚ) - 100) / 100 * 100 = -100
    ∧ (0 : ℚ) ≠ -100 := by
  refine ⟨by simp [deltaPct], rfl, rfl, by norm_num, by norm_num, by norm_num⟩

/-- C2 (amended): the payload builder computes
delta_pct = (value - target) / target * 100 whenever value and target
are both present and both nonzero, and 0 otherwise (an absent operand
and a zero operand are equally falsy); the three summary cards carry
exactly these deltas and the fourth card carries 0; and the concrete
scenarios hold: 120 against 100 gives 20, 88 against 100 gives -12,
95 against 100 gives -5, 50 against target 0 gives 0. -/
theorem C2_delta_pct_amended (v t : ℚ) (hv : v ≠ 0) (ht : t ≠ 0)
    (env : FetchEnv) (row : SummaryRow) (sel : Option String) (today nowStr : String)
    (hrow : env.kpiRow = some row) :
    deltaPct (some v) (some t) = (v - t) / t * 100
    ∧ (∀ x, deltaPct none x = 0)
    ∧ (∀ x, deltaPct x none = 0)
    ∧ (∀ x, deltaPct (some 0) x = 0)
    ∧ (∀ x, deltaPct x (some 0) = 0)
    ∧ cardDeltas (buildTvPayload env sel today nowStr).payload.cards =
        [deltaPct row.binsPerHour row.binHourTargetWeighted,
         deltaPct row.stamperPpmh row.packsManhourTargetWeighted,
         deltaPct row.totalBins row.binsTargetFullShift, 0]
    ∧ deltaPct (some 120) (some 100) = 20
    ∧ deltaPct (some 88) (some 100) = -12
    ∧ deltaPct (some 95) (some 100) = -5
    ∧ deltaPct (some 50) (some 0) = 0 := by
  refine ⟨by simp [deltaPct, hv, ht], fun x => by cases x <;> rfl,
    fun x => by cases x <;> rfl, fun x => by cases x <;> simp [deltaPct],
    fun x => by cases x <;> simp [deltaPct], ?_,
    by norm_num [deltaPct], by norm_num [deltaPct], by norm_num [deltaPct],
    by norm_num [deltaPct]⟩
  simp [buildTvPayload, get_kpi_totals, hrow, cardDeltas, kpi_card]

/-- Witness for C2 (amended) at value 120, target 100 with a concrete
one-row environment. -/
theorem C2_delta_pct_amended_witness :
    deltaPct (some 120) (some 100) = ((120 : ℚ) - 100) / 100 * 100 :=
  (C2_delta_pct_amended 120 100 (by norm_num) (by norm_num)
    ⟨some ⟨some "20261012D", some "D", some 120, some 100, none, none, none, none, none⟩,
     fun _ => [], fun _ => []⟩
    ⟨some "20261012D", some "D", some 120, some 100, none, none, none, none, none⟩
    none "2026-10-12" "12:00" rfl).1

/-- C3 counterexample: the pastel fallback returned when the value is
absent is the very string the good tier returns (here at value 100,
target 100), so the neutral result is not distinct from the three tier
colors. -/
theorem C3_counterexample_neutral_equals_green :
    color_bar_powerbi PyVal.pnone (PyVal.num 100) = "#C8E6C9"
    ∧ color_bar_powerbi (PyVal.num 100) (PyVal.num 100) = "#C8E6C9" := by
  constructor
  · rfl
  · norm_num [color_bar_powerbi, powerbiTryPct, pyFloatE, pyEqZero]

/-- C3 (amended): on numeric inputs with positive target the pastel
variant classifies into exactly the same tier as the saturated variant
(pastel green for good, pastel yellow for warn, pastel red for bad), and
when the target is absent, the target is zero, or the value is absent it
returns the fallback "#C8E6C9" — which coincides with the pastel green
tier color instead of being distinct from it. -/
theorem C3_pastel_tiers_amended (v t : ℚ) (ht : 0 < t) :
    (color_bar_powerbi (PyVal.num v) (PyVal.num t) = "#C8E6C9" ↔ t ≤ v)
    ∧ (color_bar_powerbi (PyVal.num v) (PyVal.num t) = "#FFF9C4" ↔ 9/10 * t ≤ v ∧ v < t)
    ∧ (color_bar_powerbi (PyVal.num v) (PyVal.num t) = "#FFCDD2" ↔ v < 9/10 * t)
    ∧ (color_bar_powerbi (PyVal.num v) (PyVal.num t) = "#C8E6C9"
        ↔ color_bar (some v) (some t) = "#4CAF50")
    ∧ (color_bar_powerbi (PyVal.num v) (PyVal.num t) = "#FFF9C4"
        ↔ color_bar (some v) (some t) = "#FFC107")
    ∧ (color_bar_powerbi (PyVal.num v) (PyVal.num t) = "#FFCDD2"
        ↔ color_bar (some v) (some t) = "#F44336")
    ∧ (∀ x, color_bar_powerbi PyVal.pnone x = "#C8E6C9")
    ∧ (∀ x, color_bar_powerbi x PyVal.pnone = "#C8E6C9")
    ∧ (∀ x, color_bar_powerbi x (PyVal.num 0) = "#C8E6C9") := by
  obtain ⟨p1, p2, p3⟩ := color_bar_powerbi_classification v t ht
  obtain ⟨s1, s2, s3⟩ := color_bar_classification v t ht
  exact ⟨p1, p2, p3, p1.trans s1.symm, p2.trans s2.symm, p3.trans s3.symm,
    fun x => rfl, fun x => by cases x <;> rfl, fun x => by cases x <;> rfl⟩

/-- Witness for C3 (amended) at value 95, target 100: the pastel warn
tier agrees with the saturated warn tier. -/
theorem C3_pastel_tiers_amended_witness :
    (0 : ℚ) < 100
    ∧ (color_bar_powerbi (PyVal.num 95) (PyVal.num 100) = "#FFF9C4"
        ↔ color_bar (some 95) (some 100) = "#FFC107") :=
  ⟨by norm_num, (C3_pastel_tiers_amended 95 100 (by norm_num)).2.2.2.2.1⟩

/-- C10: the pastel helper is total over arbitrary Python inputs — for
every pair of values, including None and strings, it returns one of the
three constant pastel strings (the light green doubling as the
fallback), since the conversion and division sit in a try whose except
clause catches every exception kind they can raise; the saturated
helper has no such guard and raises TypeError on a non-numeric value,
shown here on a string input. -/
theorem C10_powerbi_totality (v t : PyVal) :
    (color_bar_powerbi v t = "#C8E6C9" ∨ color_bar_powerbi v t = "#FFF9C4"
      ∨ color_bar_powerbi v t = "#FFCDD2")
    ∧ color_bar_py (PyVal.str "N/A" none) (PyVal.num 100) = Except.error PyExc.typeError := by
  constructor
  · unfold color_bar_powerbi
    split_ifs with hg
    · exact Or.inl rfl
    · cases hp : powerbiTryPct v t with
      | error e => exact Or.inl rfl
      | ok pct =>
        dsimp only
        split_ifs with h1 h2
        · exact Or.inl rfl
        · exact Or.inr (Or.inl rfl)
        · exact Or.inr (Or.inr rfl)
  · rfl

/-- C4: the query executor never propagates a fault — its result is
always the ok constructor; on any exception during acquisition or
execution it returns the empty table, the same value a genuinely empty
result produces, so callers cannot distinguish the two. -/
theorem C4_query_never_propagates (α : Type) (env : QueryEnv α) :
    (∃ rows, query env = Except.ok rows)
    ∧ (∀ e, queryTryBody env = Except.error e → query env = Except.ok [])
    ∧ (queryTryBody env = Except.ok [] → query env = Except.ok []) := by
  refine ⟨?_, ?_, ?_⟩
  · cases h : queryTryBody env with
    | error e => exact ⟨[], by simp [query, h]⟩
    | ok rows => exact ⟨rows, by simp [query, h]⟩
  · intro e he
    simp [query, he]
  · intro he
    simp [query, he]

/-- Witness for C4: a failed connection acquisition yields the empty
table. -/
theorem C4_query_never_propagates_witness :
    query (⟨Except.error "connection refused", Except.ok [(1 : ℕ)]⟩ : QueryEnv ℕ)
      = Except.ok [] :=
  (C4_query_never_propagates ℕ ⟨Except.error "connection refused", Except.ok [(1 : ℕ)]⟩).2.1
    "connection refused" rfl

/-- C5: when the summary fetch returns no row, the built payload is the
no-data payload: a single placeholder card naming the selector, the
em-dash shift placeholder in the header, an absent resolved shift key,
no warehouse query issued by the series and run fetches, both charts in
their no-data state, and the no-active-runs table. -/
theorem C5_no_data_payload (env : FetchEnv) (sel : Option String) (today nowStr : String)
    (h : env.kpiRow = none) :
    (buildTvPayload env sel today nowStr).payload.cards
        = Cards.placeholder ("No shift data for " ++ pyOrStr sel "today")
    ∧ (buildTvPayload env sel today nowStr).payload.header
        = pyOrStr sel today ++ " - — - Airport Apple Packing"
    ∧ (buildTvPayload env sel today nowStr).dateShiftKey = none
    ∧ (buildTvPayload env sel today nowStr).seriesQueried = false
    ∧ (buildTvPayload env sel today nowStr).runsQueried = false
    ∧ (buildTvPayload env sel today nowStr).payload.ppmhFig = Fig.noData "Packs Per Man Hour"
    ∧ (buildTvPayload env sel today nowStr).payload.bphFig = Fig.noData "Bins Per Hour"
    ∧ (buildTvPayload env sel today nowStr).payload.runTable = RunTable.noRuns := by
  simp [buildTvPayload, get_kpi_totals, h, get_chart_data, get_current_runs, build_chart]

/-- Witness for C5 on a concrete empty environment. -/
theorem C5_no_data_payload_witness :
    (buildTvPayload ⟨none, fun _ => [], fun _ => []⟩ none "2026-10-12" "12:00").payload.cards
        = Cards.placeholder ("No shift data for " ++ pyOrStr none "today")
    ∧ (buildTvPayload ⟨none, fun _ => [], fun _ => []⟩ none "2026-10-12" "12:00").payload.header
        = pyOrStr none "2026-10-12" ++ " - — - Airport Apple Packing"
    ∧ (buildTvPayload ⟨none, fun _ => [], fun _ => []⟩ none "2026-10-12" "12:00").dateShiftKey
        = none
    ∧ (buildTvPayload ⟨none, fun _ => [], fun _ => []⟩ none "2026-10-12" "12:00").seriesQueried
        = false
    ∧ (buildTvPayload ⟨none, fun _ => [], fun _ => []⟩ none "2026-10-12" "12:00").runsQueried
        = false
    ∧ (buildTvPayload ⟨none, fun _ => [], fun _ => []⟩ none "2026-10-12" "12:00").payload.ppmhFig
        = Fig.noData "Packs Per Man Hour"
    ∧ (buildTvPayload ⟨none, fun _ => [], fun _ => []⟩ none "2026-10-12" "12:00").payload.bphFig
        = Fig.noData "Bins Per Hour"
    ∧ (buildTvPayload ⟨none, fun _ => [], fun _ => []⟩ none "2026-10-12" "12:00").payload.runTable
        = RunTable.noRuns :=
  C5_no_data_payload ⟨none, fun _ => [], fun _ => []⟩ none "2026-10-12" "12:00" rfl

/-- A run of cache writes that never touches a key leaves that key's
entry unchanged. -/
theorem applyPuts_ne (k : Selector) (ops : List (Selector × Payload)) :
    ∀ c : Cache, (∀ op ∈ ops, op.1 ≠ k) → applyPuts c ops k = c k := by
  induction ops with
  | nil => intro c _; rfl
  | cons op rest ih =>
    intro c h
    have h1 : op.1 ≠ k := h op (List.mem_cons_self op rest)
    have h2 : ∀ op2 ∈ rest, op2.1 ≠ k := fun op2 hm => h op2 (List.mem_cons_of_mem op hm)
    have hstep : applyPuts c (op :: rest) k = applyPuts (cachePut c op.1 op.2) rest k := rfl
    rw [hstep, ih _ h2]
    simp only [cachePut]
    exact if_neg fun hh => h1 hh.symm

/-- C6: after a put of payload p under key k, a get of k returns exactly
p, and keeps returning it across any further puts that do not target k;
a get on a key never put returns the miss value; and a put replaces the
entry wholesale — the resulting entry at k is the same whatever cache
the put was applied to. -/
theorem C6_cache_semantics (c : Cache) (k : Selector) (p : Payload)
    (ops : List (Selector × Payload)) (h : ∀ op ∈ ops, op.1 ≠ k) :
    cacheGet (applyPuts (cachePut c k p) ops) k = some p
    ∧ cacheGet (cachePut c k p) k = some p
    ∧ (∀ (k2 : Selector) (ops2 : List (Selector × Payload)),
        (∀ op ∈ ops2, op.1 ≠ k2) → cacheGet (applyPuts emptyCache ops2) k2 = none)
    ∧ (∀ c2 : Cache, cachePut c k p k = cachePut c2 k p k) := by
  have hput : ∀ c2 : Cache, cachePut c2 k p k = some p := by
    intro c2
    simp [cachePut]
  refine ⟨?_, hput c, ?_, fun c2 => by rw [hput c, hput c2]⟩
  · show applyPuts (cachePut c k p) ops k = some p
    rw [applyPuts_ne k ops _ h, hput]
  · intro k2 ops2 h2
    show applyPuts emptyCache ops2 k2 = none
    rw [applyPuts_ne k2 ops2 _ h2]
    rfl

/-- Witness for C6: a put under the sentinel key survives a later put
under a date key. -/
theorem C6_cache_semantics_witness :
    cacheGet (applyPuts (cachePut emptyCache none samplePayload)
        [(some "2026-10-11", samplePayload)]) none = some samplePayload :=
  (C6_cache_semantics emptyCache none samplePayload [(some "2026-10-11", samplePayload)]
    (by decide)).1

/-- C9: two builds for the same selector over the same fetched rows and
the same calendar day agree on every payload component except the
freshness line: cards, both figures, the run table and the header are
identical whatever the two build times are. -/
theorem C9_build_idempotent (env : FetchEnv) (sel : Option String) (today t1 t2 : String) :
    (buildTvPayload env sel today t1).payload.cards
        = (buildTvPayload env sel today t2).payload.cards
    ∧ (buildTvPayload env sel today t1).payload.ppmhFig
        = (buildTvPayload env sel today t2).payload.ppmhFig
    ∧ (buildTvPayload env sel today t1).payload.bphFig
        = (buildTvPayload env sel today t2).payload.bphFig
    ∧ (buildTvPayload env sel today t1).payload.runTable
        = (buildTvPayload env sel today t2).payload.runTable
    ∧ (buildTvPayload env sel today t1).payload.header
        = (buildTvPayload env sel today t2).payload.header :=
  ⟨rfl, rfl, rfl, rfl, rfl⟩

/-- The worker has completed n + 1 refresh attempts after n sleep
intervals, whatever the outcomes of the builds were. -/
theorem workerAfter_cycle (builds : ℕ → Except String Payload) (n : ℕ) :
    (workerAfter builds n).cycle = n + 1 := by
  induction n with
  | zero => rfl
  | succ m ih => simp [workerAfter, workerNext, ih]

/-- Elapsed sleep time after n intervals. -/
theorem workerAfter_elapsed (builds : ℕ → Except String Payload) (n : ℕ) :
    (workerAfter builds n).elapsedSeconds = refreshIntervalSeconds * n := by
  induction n with
  | zero => simp [workerAfter, workerInit]
  | succ m ih =>
    simp only [workerAfter, workerNext, ih]
    rw [Nat.mul_succ]

/-- When every build up to index n succeeds, the sentinel entry has been
published exactly n + 1 times after n intervals. -/
theorem workerAfter_writes (builds : ℕ → Except String Payload) (n : ℕ)
    (h : ∀ i, i ≤ n → buildOk (builds i) = true) :
    (workerAfter builds n).writes = n + 1 := by
  induction n with
  | zero => simp [workerAfter, workerInit, h 0 (Nat.le_refl 0)]
  | succ m ih =>
    have hm : ∀ i, i ≤ m → buildOk (builds i) = true :=
      fun i hi => h i (Nat.le_trans hi (Nat.le_succ m))
    simp [workerAfter, workerNext, workerAfter_cycle, h (m + 1) (Nat.le_refl (m + 1)), ih hm]

/-- C7: the background refresher performs its first refresh immediately
(after zero sleep), its step relation is total so the loop never
terminates and the step from every reached state is taken regardless of
the build outcomes, each step sleeps exactly the fixed 300-second
interval, the attempt counter grows every cycle even across failures,
and when the builds up to interval N succeed the sentinel entry has been
written at least N times after N intervals. -/
theorem C7_background_refresher (builds : ℕ → Except String Payload) (N : ℕ)
    (h : ∀ i, i ≤ N → buildOk (builds i) = true) :
    (∀ s : WorkerState, ∃ s2, WorkerStep builds s s2)
    ∧ (∀ n, WorkerStep builds (workerAfter builds n) (workerAfter builds (n + 1)))
    ∧ (workerAfter builds 0).cache = refresh_cache_today emptyCache (builds 0)
    ∧ (workerAfter builds 0).elapsedSeconds = 0
    ∧ (∀ n, (workerAfter builds n).cycle = n + 1)
    ∧ (∀ n, (workerAfter builds n).elapsedSeconds = refreshIntervalSeconds * n)
    ∧ N ≤ (workerAfter builds N).writes := by
  refine ⟨fun s => ⟨workerNext builds s, rfl⟩, fun n => rfl, rfl, rfl,
    workerAfter_cycle builds, workerAfter_elapsed builds, ?_⟩
  rw [workerAfter_writes builds N h]
  exact Nat.le_succ N

/-- Witness for C7 with three intervals of an always-succeeding build. -/
theorem C7_background_refresher_witness :
    3 ≤ (workerAfter (fun _ => Except.ok samplePayload) 3).writes :=
  (C7_background_refresher (fun _ => Except.ok samplePayload) 3
    (fun _ _ => rfl)).2.2.2.2.2.2

/-- A string the cell-color normalization accepts has length at least 7
(so in particular it is nonempty and survives the Python or). -/
theorem normalize_cell_color_length (code : Option String) (s : String)
    (h : normalize_cell_color code = some s) : 7 ≤ s.length := by
  match code with
  | none => simp [normalize_cell_color] at h
  | some v =>
    simp only [normalize_cell_color] at h
    by_cases h1 : pyUpper (pyStrip v.data) = [] ∨ pyUpper (pyStrip v.data) = "NAN".data
        ∨ pyUpper (pyStrip v.data) = "NONE".data
    · simp [h1] at h
    · rw [if_neg h1] at h
      by_cases h2 : (pyUpper (pyStrip v.data)).head? = some '#'
      · rw [if_pos h2] at h
        by_cases h3 : 7 ≤ (pyUpper (pyStrip v.data)).length
            ∧ (pyUpper (pyStrip v.data)).all hexColorChar
        · rw [if_pos h3] at h
          have hh : String.mk (pyUpper (pyStrip v.data)) = s := Option.some_injective _ h
          rw [← hh]
          exact h3.1
        · rw [if_neg h3] at h
          exact absurd h (by simp)
      · rw [if_neg h2] at h
        by_cases h3 : 7 ≤ ('#' :: pyUpper (pyStrip v.data)).length
            ∧ ('#' :: pyUpper (pyStrip v.data)).all hexColorChar
        · rw [if_pos h3] at h
          have hh : String.mk ('#' :: pyUpper (pyStrip v.data)) = s :=
            Option.some_injective _ h
          rw [← hh]
          exact h3.1
        · rw [if_neg h3] at h
          exact absurd h (by simp)

/-- C8 counterexample: the upstream code "##FFFFF" is not a well-formed
hex color string, yet the normalization accepts it, so the resolved cell
color equals it rather than the pastel fallback that the value/target
pair (here both absent) would give. -/
theorem C8_counterexample_malformed_hex_used :
    resolveRunColor (some "##FFFFF") none none = "##FFFFF"
    ∧ wellFormedHexColor "##FFFFF" = false
    ∧ color_bar_powerbi (optToPy none) (optToPy none) = "#C8E6C9"
    ∧ ("##FFFFF" : String) ≠ "#C8E6C9" := by
  refine ⟨by decide, by decide, rfl, by decide⟩

/-- C8 (amended): the resolved run-cell color equals the normalized
upstream code exactly when the code passes the source validation —
after trimming, uppercasing and hash-prefixing, length at least 7 with
every character a hex digit or a hash (a check weaker than well-formed
hex) — and equals the pastel three-tier color of the row value/target
pair whenever the validation rejects the code. -/
theorem C8_run_color_amended (code : Option String) (v t : Option ℚ) :
    (∀ s, normalize_cell_color code = some s →
        resolveRunColor code v t = s ∧ 7 ≤ s.length)
    ∧ (normalize_cell_color code = none →
        resolveRunColor code v t = color_bar_powerbi (optToPy v) (optToPy t)) := by
  constructor
  · intro s hs
    have hlen : 7 ≤ s.length := normalize_cell_color_length code s hs
    have hne : s ≠ "" := by
      intro he
      rw [he] at hlen
      simp at hlen
    refine ⟨?_, hlen⟩
    rw [resolveRunColor, hs]
    simp [pyOrStr, hne]
  · intro hs
    rw [resolveRunColor, hs]
    rfl

/-- Witness for C8 (amended): a bare six-digit code is normalized to its
hash-prefixed uppercase form and used as the cell color. -/
theorem C8_run_color_amended_witness :
    resolveRunColor (some "4CAF50") none none = "#4CAF50"
    ∧ 7 ≤ ("#4CAF50" : String).length :=
  (C8_run_color_amended (some "4CAF50") none none).1 "#4CAF50" (by decide)

end TvDisplay
